import Mathlib

/-
Verification of the chat-to-spreadsheet tool (chatgpt.py, output_excel.py,
main.py) against its specification.

The Python sources are shallowly embedded:
  * Python strings become Lean `String` (sequences of Unicode code points,
    matching Python's `len` and slicing semantics).
  * Console input becomes an explicit list of answer strings, consumed in
    order; a loop that would keep prompting past the end of the list is
    modelled as returning `none`.
  * Remote-API calls become explicit oracle parameters (a function from the
    message list so far to a completion, or an `Except` value for the
    model-list fetch).
  * The openpyxl worksheet becomes an explicit `Worksheet` record of cell
    values, fills, fonts, wrap flags, row heights and column widths, with
    each assignment in the Python code becoming a functional update.
-/

/-- Message: one entry of the chat transcript, mirroring the Python dicts
of shape `\x7b"role": ..., "content": ...\x7d` built in `generate_chat_log`. -/
structure Message where
  role : String
  content : String
deriving DecidableEq, Repr

/-- Constant `EXIT_COMMAND` from chatgpt.py line 7. -/
def EXIT_COMMAND : String := "exit()"

/-- Constant `DEFAULT_MODEL` from chatgpt.py line 8. -/
def DEFAULT_MODEL : String := "gpt-3.5-turbo"

/-- Python slice `s[:n]`: the first `n` code points of `s`. -/
def pyTake (s : String) (n : Nat) : String :=
  ⟨s.data.take n⟩

/-- Truncation step of `generate_summary` (chatgpt.py lines 203-207).
The upstream completion text `summary` (the remote call's
`response.choices[0].message.content`) is passed in as a parameter; the code
returns `summary[:summary_length]` when `len(summary) > summary_length` and
`summary` unchanged otherwise.  The source calls it with the default
`summary_length = 10`. -/
def generate_summary (summary : String) (summary_length : Nat) : String :=
  if summary_length < summary.length then pyTake summary summary_length
  else summary

/-- List `invalid_chars` from `trim_invalid_chars` (output_excel.py line 85). -/
def invalid_chars : List Char := ['/', '\\', '?', '*', '[', ']']

/-- Python `s.replace(c, "")` for a single-character pattern: every
occurrence of the character is removed. -/
def pyReplaceCharEmpty (s : String) (c : Char) : String :=
  ⟨s.data.filter (fun a => a ≠ c)⟩

/-- Embedding of `trim_invalid_chars` (output_excel.py lines 77-88): the
loop `for char in invalid_chars: new_title = new_title.replace(char, "")`
is a left fold of single-character removals over `invalid_chars`. -/
def trim_invalid_chars (title : String) : String :=
  invalid_chars.foldl pyReplaceCharEmpty title

/-- Title actually given to the worksheet by `create_worksheet`
(output_excel.py lines 52-74): both branches (fresh workbook's active sheet,
or a newly created sheet) assign `trimmed_title = trim_invalid_chars(title)`
as the sheet title. -/
def create_worksheet_title (title : String) : String :=
  trim_invalid_chars title

/-- Split a character list at every occurrence of `c`, keeping empty pieces,
with Python `str.split` semantics: splitting the empty string yields one
empty piece. -/
def splitOnChar (c : Char) : List Char → List (List Char)
  | [] => [[]]
  | a :: rest =>
    let r := splitOnChar c rest
    if a = c then [] :: r
    else
      match r with
      | [] => [[a]]
      | h :: t => (a :: h) :: t

/-- Python `s.split("\n")` as used in `write_chat_log`
(output_excel.py line 152). -/
def pySplitOnNewline (s : String) : List String :=
  (splitOnChar (Char.ofNat 10) s.data).map (fun l => ⟨l⟩)

/-- Boolean character-list test used to embed Python's `in` on strings. -/
def isPrefixList : List Char → List Char → Bool
  | [], _ => true
  | _ :: _, [] => false
  | a :: as, b :: bs => a = b && isPrefixList as bs

/-- Boolean substring test on character lists. -/
def listHasSub (needle : List Char) : List Char → Bool
  | [] => isPrefixList needle []
  | b :: bs => isPrefixList needle (b :: bs) || listHasSub needle bs

/-- Python `needle in hay` on strings: substring containment over code
points, as in the filter `"gpt" in model.id` (chatgpt.py line 131). -/
def strHasSub (hay needle : String) : Bool :=
  listHasSub needle.data hay.data

/-- Code points at which a run of ten consecutive Unicode decimal digits
(general category Nd) starts, modelled from the Unicode 15.0 database that
Python's `str.isdigit` and `int` consult; every Nd block is a contiguous
run for 0-9.  Includes e.g. ASCII at 0x30, Arabic-Indic at 0x660 (so
'٣' has decimal value 3) and fullwidth at 0xFF10 (so '１' has decimal
value 1). -/
def decimalDigitRangeStarts : List Nat :=
  [0x30, 0x660, 0x6F0, 0x7C0, 0x966, 0x9E6, 0xA66, 0xAE6, 0xB66, 0xBE6,
   0xC66, 0xCE6, 0xD66, 0xDE6, 0xE50, 0xED0, 0xF20, 0x1040, 0x1090, 0x17E0,
   0x1810, 0x1946, 0x19D0, 0x1A80, 0x1A90, 0x1B50, 0x1BB0, 0x1C40, 0x1C50,
   0xA620, 0xA8D0, 0xA900, 0xA9D0, 0xA9F0, 0xAA50, 0xABF0, 0xFF10,
   0x104A0, 0x10D30, 0x11066, 0x110F0, 0x11136, 0x111D0, 0x112F0, 0x11450,
   0x114D0, 0x11650, 0x116C0, 0x11730, 0x118E0, 0x11950, 0x11C50, 0x11D50,
   0x11DA0, 0x11F50, 0x16A60, 0x16AC0, 0x16B50, 0x1D7CE, 0x1D7D8, 0x1D7E2,
   0x1D7EC, 0x1D7F6, 0x1E140, 0x1E2F0, 0x1E4F0, 0x1E950, 0x1FBF0]

/-- Decimal value of a character: `some d` when the character is a Unicode
decimal digit (Nd) with value `d`, `none` otherwise. -/
def pyCharDecimalVal (c : Char) : Option Nat :=
  (decimalDigitRangeStarts.find? (fun b => b ≤ c.toNat && c.toNat < b + 10)).map
    (fun b => c.toNat - b)

/-- Inclusive code-point ranges of the characters with Numeric_Type=Digit
that are not decimal digits, modelled from the Unicode 15.0 database:
superscripts and subscripts such as '²', Ethiopic digits, the New Tai Lue
tham digit, circled / parenthesized / full-stop / comma digit forms,
Kharoshthi digits, Rumi digits and Brahmi number digits.  Python's
`str.isdigit` accepts them but `int` rejects them. -/
def digitOnlyRanges : List (Nat × Nat) :=
  [(0xB2, 0xB3), (0xB9, 0xB9), (0x1369, 0x1371), (0x19DA, 0x19DA),
   (0x2070, 0x2070), (0x2074, 0x2079), (0x2080, 0x2089), (0x2460, 0x2468),
   (0x2474, 0x247C), (0x2488, 0x2490), (0x24EA, 0x24EA), (0x24F5, 0x24FD),
   (0x24FF, 0x24FF), (0x2776, 0x277E), (0x2780, 0x2788), (0x278A, 0x2792),
   (0x10A40, 0x10A43), (0x10E60, 0x10E68), (0x11052, 0x1105A),
   (0x1F100, 0x1F10A)]

/-- Python's per-character digit test used by `str.isdigit`: the character
has Numeric_Type Decimal (a decimal digit of any script) or Digit. -/
def pyCharIsDigit (c : Char) : Bool :=
  (pyCharDecimalVal c).isSome ||
    digitOnlyRanges.any (fun r => r.1 ≤ c.toNat && c.toNat ≤ r.2)

/-- Python `s.isdigit()`: non-empty and every character is a digit — this
accepts non-ASCII decimal digits such as '٣' and '１' as well as
digit-only characters such as '²'. -/
def pyIsDigit (s : String) : Bool :=
  !s.isEmpty && s.data.all pyCharIsDigit

/-- Python `int(s)` on the non-empty strings that pass the `isdigit` guard
in `choice_model`: `some` of the base-10 value when every character is a
decimal digit of any script (e.g. `int("٣")` is 3), and `none` — modelling
the raised ValueError — when some character is a digit without a decimal
value (e.g. `int("²")` raises).  Signs, whitespace and underscores, which
full `int` also accepts, never pass the `isdigit` guard. -/
def pyInt (s : String) : Option Nat :=
  s.data.foldl
    (fun acc c =>
      match acc, pyCharDecimalVal c with
      | some a, some d => some (a * 10 + d)
      | _, _ => none)
    (some 0)

/-- Embedding of `input_user_prompt` (chatgpt.py lines 28-39): the
`while not user_prompt` loop keeps reading until a non-empty line arrives.
The console is the list `inputs`; the function returns the accepted prompt
together with the unconsumed rest of the console, or `none` when the console
is exhausted (the Python loop would keep prompting forever). -/
def input_user_prompt : List String → Option (String × List String)
  | [] => none
  | user_prompt :: rest =>
    if user_prompt = "" then input_user_prompt rest
    else some (user_prompt, rest)

/-- Outcome of the `choice_model` loop: a returned model name, an uncaught
ValueError from `int(input_number)` aborting the loop (no handler in the
program catches it), or the loop still prompting when the console list is
exhausted. -/
inductive ChoiceModelResult where
  | selected (name : String)
  | valueErrorCrash (input_number : String)
  | prompting
deriving DecidableEq, Repr

/-- Embedding of `choice_model` (chatgpt.py lines 140-170): the `while True`
loop reads one line per iteration from the console list.  Empty input
selects `DEFAULT_MODEL`; input failing `isdigit` re-prompts (recursion on
the remaining console); otherwise `int(input_number)` is evaluated for the
range test of line 164 — on a digit-only character such as '²' it raises
ValueError, which nothing catches, so the loop aborts; an out-of-range
value re-prompts; an in-range value indexes `gpt_model_list` (the second
`int` call of line 169 parses the same string again to the same value). -/
def choice_model (gpt_model_list : List String) : List String → ChoiceModelResult
  | [] => .prompting
  | input_number :: rest =>
    if input_number = "" then .selected DEFAULT_MODEL
    else if !pyIsDigit input_number then choice_model gpt_model_list rest
    else
      match pyInt input_number with
      | none => .valueErrorCrash input_number
      | some n =>
        if h : n < gpt_model_list.length then .selected (gpt_model_list.get ⟨n, h⟩)
        else choice_model gpt_model_list rest

/-- Embedding of `get_initial_prompt` (chatgpt.py lines 173-183): the first
transcript entry whose role is "user", if any (the Python function returns
`None` after an exhausted loop). -/
def get_initial_prompt : List Message → Option String
  | [] => none
  | log :: rest =>
    if log.role = "user" then some log.content
    else get_initial_prompt rest

/-- Error classes of the openai client caught in `fetch_gpt_model_list`
(chatgpt.py lines 118-126): `APIError` and `ServiceUnavailableError` share
one handler; `Timeout`, `AuthenticationError` and the generic `OpenAIError`
each have their own. -/
inductive OpenAIErrorKind where
  | apiError
  | serviceUnavailableError
  | timeoutError
  | authenticationError
  | otherOpenAIError
deriving DecidableEq, Repr

/-- One record of `openai.Model.list().data`; only the `id` attribute is
read by the code. -/
structure OpenAIModel where
  id : String
deriving DecidableEq, Repr

/-- Diagnostic lines printed by the `except` handlers of
`fetch_gpt_model_list` (chatgpt.py lines 118-126).  `print_error_message`
wraps its text in terminal colour escapes, which are presentation only and
abstracted away; the first handler additionally prints the status-page
line. -/
def fetch_error_messages : OpenAIErrorKind → List String
  | .apiError =>
    ["OpenAI側でエラーが発生しています。少し待ってから再度試してください。",
     "サービス稼働状況は https://status.openai.com で確認できます。"]
  | .serviceUnavailableError =>
    ["OpenAI側でエラーが発生しています。少し待ってから再度試してください。",
     "サービス稼働状況は https://status.openai.com で確認できます。"]
  | .timeoutError =>
    ["処理に時間がかかりすぎているためプログラムを終了します。少し待ってから再度試してください。"]
  | .authenticationError =>
    ["APIキーが正しくないためプログラムを終了します。"]
  | .otherOpenAIError =>
    ["エラーが発生しました。"]

/-- Embedding of `fetch_gpt_model_list` (chatgpt.py lines 109-137).  The
remote call's outcome is the parameter `result`.  On an exception the
matching handler's diagnostics are printed and the function returns `None`
(first component `none`, second component the printed lines).  On success
the `for`/`if`/`append` loop keeps exactly the ids containing "gpt" in
order (a filter-then-map), and `gpt_model_list.sort()` sorts them; `≤` on
`String` is the same code-point-lexicographic order Python uses, under
which the sorted permutation is unique, so any sorting algorithm yields
Python's result. -/
def fetch_gpt_model_list (result : Except OpenAIErrorKind (List OpenAIModel)) :
    Option (List String) × List String :=
  match result with
  | .error e => (none, fetch_error_messages e)
  | .ok all_model_list =>
    (some (List.insertionSort (fun a b => a ≤ b)
      ((all_model_list.filter (fun m => strHasSub m.id "gpt")).map (fun m => m.id))), [])

/-- Python truthiness of `gpt_list` in `chat_runner` (chatgpt.py line 222):
`None` and the empty list are both falsy. -/
def pyListOptTruthy : Option (List String) → Bool
  | none => false
  | some l => !l.isEmpty

/-- First phase of `chat_runner` (chatgpt.py lines 220-226): after the
fetch, `if not gpt_list: exit()`.  `none` models the process exiting before
`choice_model` is ever called; `some l` models `choice_model(l)` being
reached. -/
def chat_runner_model_phase (fetched : Option (List String)) : Option (List String) :=
  if pyListOptTruthy fetched then fetched else none

/-- Chat loop of `generate_chat_log` (chatgpt.py lines 57-72).  Each
iteration calls `input_user_prompt` on the remaining console `inputs`; the
reserved `EXIT_COMMAND` breaks before appending; otherwise the user message
is appended, the completion oracle `api` is consulted with the full log
(returning the pair (content, role) that `stream_and_concatenate_response`
produces), and its reply is appended.  `none` models the console running
dry while the loop still wants input. -/
def chat_loop (api : List Message → String × String)
    (inputs : List String) (chat_log : List Message) : Option (List Message) :=
  match h : input_user_prompt inputs with
  | none => none
  | some pr =>
    if pr.1 = EXIT_COMMAND then some chat_log
    else
      let log1 := chat_log ++ [⟨"user", pr.1⟩]
      let r := api log1
      chat_loop api pr.2 (log1 ++ [⟨r.2, r.1⟩])
termination_by inputs.length
decreasing_by
  revert h
  induction inputs with
  | nil => intro h; simp [input_user_prompt] at h
  | cons s t ih =>
    intro h
    by_cases hs : s = ""
    · rw [input_user_prompt, if_pos hs] at h
      exact Nat.lt_succ_of_lt (ih h)
    · rw [input_user_prompt, if_neg hs] at h
      obtain ⟨_h1, h2⟩ := Prod.mk.injEq .. ▸ Option.some.injEq .. ▸ h
      rw [← h2]
      exact Nat.lt_succ_self _

/-- Embedding of `generate_chat_log` (chatgpt.py lines 42-72).  The string
entered at the `give_role_to_system` prompt is `system_role`; Python's
`if system_role:` seeds the log with a system message only when it is
non-empty.  The loop is `chat_loop`. -/
def generate_chat_log (api : List Message → String × String)
    (system_role : String) (inputs : List String) : Option (List Message) :=
  chat_loop api inputs
    (if system_role = "" then [] else [⟨"system", system_role⟩])

/-- Summary phase of `chat_runner` (chatgpt.py lines 233-241).
`summary_api` is the completion oracle of the `generate_summary` call
(mapping the initial prompt to `response.choices[0].message.content`).  The
second component counts the summary completion calls issued.  Python's
`if initial_user_prompt:` is falsy both for `None` and for the empty
string. -/
def chat_runner_summary (summary_api : String → String)
    (generated_log : List Message) : String × Nat :=
  match get_initial_prompt generated_log with
  | none => ("", 0)
  | some initial_user_prompt =>
    if initial_user_prompt = "" then ("", 0)
    else (generate_summary (summary_api initial_user_prompt) 10, 1)

/-- Worksheet state: the openpyxl cell attributes that output_excel.py
assigns.  Cells are addressed by row number and column letter; fonts are
abstracted to their name string. -/
structure Worksheet where
  cellValue : Nat → String → Option String
  cellFill : Nat → String → Option String
  cellFontName : Nat → String → Option String
  cellWrap : Nat → String → Bool
  rowHeight : Nat → Option Nat
  colWidth : String → Option Nat

/-- Fresh worksheet, as produced by `openpyxl.Workbook()`'s active sheet or
`create_sheet`: no values, fills, wrap flags, heights or widths set. -/
def emptyWorksheet : Worksheet :=
  ⟨fun _ _ => none, fun _ _ => none, fun _ _ => none,
   fun _ _ => false, fun _ => none, fun _ => none⟩

/-- Assignment `cell.value = v`. -/
def setCellValue (ws : Worksheet) (row : Nat) (col : String) (v : String) : Worksheet :=
  { ws with cellValue := fun r c => if r = row ∧ c = col then some v else ws.cellValue r c }

/-- Assignment `cell.fill = PatternFill(fill_type="solid", fgColor=color)`. -/
def setCellFill (ws : Worksheet) (row : Nat) (col : String) (color : String) : Worksheet :=
  { ws with cellFill := fun r c => if r = row ∧ c = col then some color else ws.cellFill r c }

/-- Assignment `cell.font = Font(name=name, ...)`. -/
def setCellFontName (ws : Worksheet) (row : Nat) (col : String) (name : String) : Worksheet :=
  { ws with cellFontName := fun r c => if r = row ∧ c = col then some name else ws.cellFontName r c }

/-- Assignment `cell.alignment = Alignment(wrapText=True)`. -/
def setCellWrap (ws : Worksheet) (row : Nat) (col : String) : Worksheet :=
  { ws with cellWrap := fun r c => if r = row ∧ c = col then true else ws.cellWrap r c }

/-- Assignment `worksheet.row_dimensions[row].height = h`. -/
def setRowHeight (ws : Worksheet) (row : Nat) (h : Nat) : Worksheet :=
  { ws with rowHeight := fun r => if r = row then some h else ws.rowHeight r }

/-- Assignment `worksheet.column_dimensions[col].width = w`. -/
def setColWidth (ws : Worksheet) (col : String) (w : Nat) : Worksheet :=
  { ws with colWidth := fun c => if c = col then some w else ws.colWidth c }

/-- Embedding of `header_formatting` (output_excel.py lines 91-124): the
timestamp string written to A1 is the parameter `now_str`; A2/B2 get the
header texts, the メイリオ font (bold white, abstracted to the name) and the
green fill; columns A and B get fixed widths. -/
def header_formatting (ws : Worksheet) (now_str : String) : Worksheet :=
  let ws1 := setCellValue ws 1 "A" now_str
  let ws2 := setCellFontName ws1 1 "A" "メイリオ"
  let ws3 := setCellValue ws2 2 "A" "ロール"
  let ws4 := setCellValue ws3 2 "B" "発言内容"
  let ws5 := setCellFontName ws4 2 "A" "メイリオ"
  let ws6 := setCellFontName ws5 2 "B" "メイリオ"
  let ws7 := setCellFill ws6 2 "A" "156B31"
  let ws8 := setCellFill ws7 2 "B" "156B31"
  let ws9 := setColWidth ws8 "A" 22
  setColWidth ws9 "B" 168

/-- One iteration of the `for row_number, content in enumerate(chat_log, 3)`
loop of `write_chat_log` (output_excel.py lines 141-160): write role to
column A and content to column B, enable wrap on B, set the row height to
17 per newline-delimited line of the content, set the font, and shade both
cells light gray when the role is "assistant". -/
def write_one (ws : Worksheet) (row_number : Nat) (content : Message) : Worksheet :=
  let ws1 := setCellValue ws row_number "A" content.role
  let ws2 := setCellValue ws1 row_number "B" content.content
  let ws3 := setCellWrap ws2 row_number "B"
  let ws4 := setRowHeight ws3 row_number ((pySplitOnNewline content.content).length * 17)
  let ws5 := setCellFontName ws4 row_number "A" "メイリオ"
  let ws6 := setCellFontName ws5 row_number "B" "メイリオ"
  if content.role = "assistant" then
    setCellFill (setCellFill ws6 row_number "A" "d9d9d9") row_number "B" "d9d9d9"
  else ws6

/-- The enumerate loop of `write_chat_log`, starting at row `row_number`. -/
def write_rows (ws : Worksheet) (row_number : Nat) : List Message → Worksheet
  | [] => ws
  | content :: rest => write_rows (write_one ws row_number content) (row_number + 1) rest

/-- Embedding of `write_chat_log` (output_excel.py lines 127-161):
`write_start_row = 3`. -/
def write_chat_log (ws : Worksheet) (chat_log : List Message) : Worksheet :=
  write_rows ws 3 chat_log

/-- Worksheet contents produced by `output_excel` (output_excel.py lines
175-188) on the worksheet `create_worksheet` hands it (always a fresh,
empty sheet): header formatting followed by the transcript rows. -/
def output_excel_worksheet (now_str : String) (chat_log : List Message) : Worksheet :=
  write_chat_log (header_formatting emptyWorksheet now_str) chat_log

/-- Python exception classes relevant to `is_output_open_excel`. -/
inductive PyOSError where
  | fileNotFoundError
  | permissionError
deriving DecidableEq, Repr

/-- Behaviour of Python's `path.open("r+b")` (update mode, no creation):
raises `FileNotFoundError` when the file does not exist, `PermissionError`
when the OS denies the locking open (the Windows case of the file being
held open by Excel), and succeeds otherwise. -/
def pathOpenRPlusB (fileExists isLockedByOther : Bool) : Except PyOSError Unit :=
  if fileExists = false then .error .fileNotFoundError
  else if isLockedByOther then .error .permissionError
  else .ok ()

/-- Embedding of `is_output_open_excel` (output_excel.py lines 13-32).  The
environment is explicit: `os_name` is `os.name`, `fileExists` whether the
spreadsheet exists, `isLockedByOther` whether another process holds it open
for writing, `lsofOutputNonempty` whether `lsof` prints anything for it.
On "nt" the code catches only `PermissionError`, so any other exception of
the probing open escapes (`Except.error`); on "posix" it checks existence
first and then `bool(result.stdout)`; on any other platform the function
falls through and returns Python `None` (`Option.none`). -/
def is_output_open_excel (os_name : String)
    (fileExists isLockedByOther lsofOutputNonempty : Bool) :
    Except PyOSError (Option Bool) :=
  if os_name = "nt" then
    match pathOpenRPlusB fileExists isLockedByOther with
    | .ok _ => .ok (some false)
    | .error .permissionError => .ok (some true)
    | .error e => .error e
  else if os_name = "posix" then
    if fileExists then .ok (some lsofOutputNonempty) else .ok (some false)
  else .ok none

/-- Outcome of the module body of main.py. -/
inductive MainOutcome where
  | crashedBeforeChat (e : PyOSError)
  | chatStarted
  | refusedFileOpenMessage
deriving DecidableEq, Repr

/-- Embedding of main.py lines 4-9: `is_output_open_excel` runs first; an
exception it raises is uncaught and aborts the process before any chat
(`crashedBeforeChat`); otherwise `if not is_excel_open:` starts the chat
(true for both `False` and `None`) and the else branch only prints the
file-is-open message. -/
def main_flow (os_name : String)
    (fileExists isLockedByOther lsofOutputNonempty : Bool) : MainOutcome :=
  match is_output_open_excel os_name fileExists isLockedByOther lsofOutputNonempty with
  | .error e => .crashedBeforeChat e
  | .ok is_excel_open =>
    if is_excel_open = some true then .refusedFileOpenMessage else .chatStarted

theorem pyTake_length (s : String) (n : Nat) :
    (pyTake s n).length = min n s.length :=
  List.length_take n s.data

/-- Claim C1 (code bug evidence): `trim_invalid_chars` does not strip the
colon, although the spec's reserved worksheet-name set contains it: on the
input ":" the output still is ":", and on "a:b/\?*[]" only the six listed
characters disappear while the colon survives. -/
theorem C1_trim_invalid_chars_keeps_colon :
    trim_invalid_chars ":" = ":" ∧
    trim_invalid_chars "a:b/\\?*[]" = "a:b" ∧
    (trim_invalid_chars "a:b/\\?*[]").data.contains ':' = true := by
  decide

/-- Claim C2 (counterexample): for the 11-character upstream result below,
`generate_summary` returns exactly its first 10 characters — a prefix of
the input whose last character is the input's own 10th character, with no
ellipsis or any other marker appended. -/
theorem C2_truncation_marker_counterexample :
    generate_summary "aaaaaaaaaab" 10 = "aaaaaaaaaa" ∧
    ("aaaaaaaaaa" : String).data <+: ("aaaaaaaaaab" : String).data ∧
    ("aaaaaaaaaa" : String).data.getLast? = some 'a' ∧
    ¬ ('a' = '…') := by
  refine ⟨by decide, ⟨['b'], by decide⟩, by decide, by decide⟩

/-- Claim C2 (amended): whenever the upstream completion result is longer
than the 10-character budget, `generate_summary` returns exactly the first
10 characters — a hard cutoff that is a prefix of the upstream result, so
no visible truncation marker is appended. -/
theorem C2_truncation_hard_cutoff :
    ∀ summary : String, 10 < summary.length →
      generate_summary summary 10 = pyTake summary 10 ∧
      (generate_summary summary 10).data <+: summary.data ∧
      (generate_summary summary 10).length = 10 := by
  intro s h
  rw [generate_summary, if_pos h]
  refine ⟨rfl, List.take_prefix 10 s.data, ?_⟩
  rw [pyTake_length]
  omega

/-- Witness for C2: the amended theorem at the concrete 12-character
upstream result "hello world!". -/
theorem C2_truncation_hard_cutoff_witness :
    generate_summary "hello world!" 10 = pyTake "hello world!" 10 ∧
    (generate_summary "hello world!" 10).data <+: ("hello world!" : String).data ∧
    (generate_summary "hello world!" 10).length = 10 :=
  C2_truncation_hard_cutoff "hello world!" (by decide)

/-- Claim C6: for every upstream completion result, `generate_summary` at
the configured budget 10 returns a string of length at most 10; results
within the budget come back unchanged, and longer results are cut to
exactly the first 10 characters. -/
theorem C6_generate_summary_budget :
    ∀ summary : String,
      (generate_summary summary 10).length ≤ 10 ∧
      (summary.length ≤ 10 → generate_summary summary 10 = summary) ∧
      (10 < summary.length →
        (generate_summary summary 10).data = summary.data.take 10 ∧
        (generate_summary summary 10).length = 10) := by
  intro s
  by_cases h : 10 < s.length
  · rw [generate_summary, if_pos h]
    refine ⟨?_, fun hle => absurd h (by omega), fun _ => ⟨rfl, ?_⟩⟩ <;>
      rw [pyTake_length] <;> omega
  · rw [generate_summary, if_neg h]
    exact ⟨by omega, fun _ => rfl, fun hgt => absurd hgt h⟩

/-- Witness for C6: the theorem at the short result "hi" (returned
unchanged) evaluated concretely. -/
theorem C6_generate_summary_budget_witness :
    (generate_summary "hi" 10).length ≤ 10 ∧ generate_summary "hi" 10 = "hi" :=
  ⟨(C6_generate_summary_budget "hi").1,
   (C6_generate_summary_budget "hi").2.1 (by decide)⟩

theorem pyIsDigit_ne_empty {s : String} (h : pyIsDigit s = true) : s ≠ "" := by
  intro hs
  rw [hs] at h
  exact absurd h (by decide)

theorem choice_model_reject (gpt_model_list : List String) (s : String)
    (rest : List String) (hne : s ≠ "")
    (hrej : pyIsDigit s = false ∨ ∃ n, pyInt s = some n ∧ gpt_model_list.length ≤ n) :
    choice_model gpt_model_list (s :: rest) = choice_model gpt_model_list rest := by
  rw [choice_model, if_neg hne]
  rcases hrej with hdig | ⟨n, hparse, hge⟩
  · rw [hdig, if_pos (by decide)]
  · rcases hb : pyIsDigit s with _ | _
    · rw [if_pos (by decide)]
    · rw [if_neg (by decide)]
      simp only [hparse]
      exact dif_neg (Nat.not_lt.mpr hge)

theorem choice_model_crash (gpt_model_list : List String) (s : String)
    (rest : List String) (h1 : pyIsDigit s = true) (hp : pyInt s = none) :
    choice_model gpt_model_list (s :: rest) = .valueErrorCrash s := by
  rw [choice_model, if_neg (pyIsDigit_ne_empty h1), h1, if_neg (by decide)]
  simp [hp]

theorem choice_model_all_rejected (gpt_model_list : List String) :
    ∀ inputs : List String,
      (∀ s ∈ inputs,
        s ≠ "" ∧ (pyIsDigit s = false ∨ ∃ n, pyInt s = some n ∧ gpt_model_list.length ≤ n)) →
      choice_model gpt_model_list inputs = .prompting := by
  intro inputs
  induction inputs with
  | nil => intro _; rfl
  | cons s rest ih =>
    intro hall
    obtain ⟨hne, hrej⟩ := hall s (by simp)
    rw [choice_model_reject gpt_model_list s rest hne hrej]
    exact ih (fun x hx => hall x (by simp [hx]))

/-- Claim C5 (counterexample): the superscript input "²" passes the
`isdigit` guard, so it is not rejected with a re-prompt; instead
`int("²")` raises an uncaught ValueError and the loop terminates by
crashing — it neither selects an entry nor keeps prompting — refuting the
claim that every non-numeric input causes a re-prompt and never terminates
the loop. -/
theorem C5_choice_model_counterexample :
    pyIsDigit "²" = true ∧
    choice_model ["m0", "m1", "m2"] ["²"] = .valueErrorCrash "²" ∧
    choice_model ["m0", "m1", "m2"] ["²"] ≠ .prompting := by
  decide

/-- Claim C5 (amended): empty input immediately selects `DEFAULT_MODEL`;
a non-empty input all of whose characters are decimal digits (of any
script, e.g. "٣" or "１") with value in `[0, len(gpt_model_list))` returns
exactly that list entry; a non-empty input that fails `isdigit` or parses
to an out-of-range value leaves the loop exactly where it was with the
remaining console (a re-prompt, returning nothing derived from the
rejected input), and a console of only such inputs never returns; but an
input that passes `isdigit` while containing a digit character with no
decimal value (such as "²") aborts the loop with an uncaught ValueError
from `int`. -/
theorem C5_choice_model_behavior :
    (∀ (gpt_model_list rest : List String),
      choice_model gpt_model_list ("" :: rest) = .selected DEFAULT_MODEL) ∧
    (∀ (gpt_model_list : List String) (s : String) (rest : List String) (n : Nat)
      (_h1 : pyIsDigit s = true) (_hp : pyInt s = some n)
      (h2 : n < gpt_model_list.length),
      choice_model gpt_model_list (s :: rest)
        = .selected (gpt_model_list.get ⟨n, h2⟩)) ∧
    (∀ (gpt_model_list : List String) (s : String) (rest : List String),
      s ≠ "" →
      (pyIsDigit s = false ∨ ∃ n, pyInt s = some n ∧ gpt_model_list.length ≤ n) →
      choice_model gpt_model_list (s :: rest) = choice_model gpt_model_list rest) ∧
    (∀ (gpt_model_list : List String) (s : String) (rest : List String),
      pyIsDigit s = true → pyInt s = none →
      choice_model gpt_model_list (s :: rest) = .valueErrorCrash s) ∧
    (∀ (gpt_model_list inputs : List String),
      (∀ s ∈ inputs,
        s ≠ "" ∧ (pyIsDigit s = false ∨ ∃ n, pyInt s = some n ∧ gpt_model_list.length ≤ n)) →
      choice_model gpt_model_list inputs = .prompting) := by
  refine ⟨?_, ?_, choice_model_reject, choice_model_crash, choice_model_all_rejected⟩
  · intro l rest
    rw [choice_model, if_pos rfl]
  · intro l s rest n h1 hp h2
    rw [choice_model, if_neg (pyIsDigit_ne_empty h1), h1, if_neg (by decide)]
    simp only [hp]
    exact dif_pos h2

/-- Witness for C5: on a four-model list, the non-digit "abc" re-prompts
and the Arabic-Indic digit "٣" then selects entry 3; the fullwidth digit
"１" selects entry 1; the out-of-range "9" and non-digit "x" leave the
loop prompting; and the superscript "²" crashes it. -/
theorem C5_choice_model_behavior_witness :
    choice_model ["m0", "m1", "m2", "m3"] ["abc", "٣"] = .selected "m3" ∧
    choice_model ["m0", "m1", "m2", "m3"] ["１"] = .selected "m1" ∧
    choice_model ["m0", "m1", "m2", "m3"] ["9", "x"] = .prompting ∧
    choice_model ["m0", "m1", "m2", "m3"] ["²"] = .valueErrorCrash "²" := by
  refine ⟨?_, ?_, ?_, ?_⟩
  · rw [C5_choice_model_behavior.2.2.1 _ "abc" _ (by decide) (Or.inl (by decide)),
      C5_choice_model_behavior.2.1 _ "٣" [] 3 (by decide) (by decide) (by decide)]
    decide
  · rw [C5_choice_model_behavior.2.1 _ "１" [] 1 (by decide) (by decide) (by decide)]
    decide
  · refine C5_choice_model_behavior.2.2.2.2 _ ["9", "x"] ?_
    intro s hs
    rcases List.mem_cons.mp hs with rfl | hs2
    · exact ⟨by decide, Or.inr ⟨9, by decide, by decide⟩⟩
    · rcases List.mem_cons.mp hs2 with rfl | hs3
      · exact ⟨by decide, Or.inl (by decide)⟩
      · exact absurd hs3 (List.not_mem_nil s)
  · exact C5_choice_model_behavior.2.2.2.1 _ "²" [] (by decide) (by decide)

theorem input_user_prompt_some :
    ∀ (inputs : List String) (pr : String × List String),
      input_user_prompt inputs = some pr →
      pr.1 ≠ "" ∧ pr.2.length < inputs.length := by
  intro inputs
  induction inputs with
  | nil => intro pr h; simp [input_user_prompt] at h
  | cons s t ih =>
    intro pr h
    simp only [input_user_prompt] at h
    split at h
    · obtain ⟨h1, h2⟩ := ih pr h
      exact ⟨h1, Nat.lt_succ_of_lt h2⟩
    · rename_i hs
      injection h with h2
      subst h2
      exact ⟨hs, Nat.lt_succ_self _⟩

theorem chat_loop_step (api : List Message → String × String)
    (inputs : List String) (chat_log : List Message)
    (p : String) (rest : List String)
    (h : input_user_prompt inputs = some (p, rest)) :
    chat_loop api inputs chat_log =
      if p = EXIT_COMMAND then some chat_log
      else
        chat_loop api rest
          ((chat_log ++ [⟨"user", p⟩])
            ++ [⟨(api (chat_log ++ [⟨"user", p⟩])).2,
                (api (chat_log ++ [⟨"user", p⟩])).1⟩]) := by
  rw [chat_loop]
  split
  · rename_i heq
    rw [h] at heq
    cases heq
  · rename_i pr heq
    rw [h] at heq
    injection heq with h2
    subst h2
    rfl

theorem chat_loop_exit (api : List Message → String × String)
    (rest : List String) (chat_log : List Message) :
    chat_loop api (EXIT_COMMAND :: rest) chat_log = some chat_log := by
  rw [chat_loop]
  simp [input_user_prompt, EXIT_COMMAND]

theorem chat_loop_user_content (api : List Message → String × String)
    (hapi : ∀ l, (api l).2 = "assistant") :
    ∀ (n : Nat) (inputs : List String) (chat_log out : List Message),
      inputs.length ≤ n →
      (∀ m ∈ chat_log, m.role = "user" → m.content ≠ "") →
      chat_loop api inputs chat_log = some out →
      ∀ m ∈ out, m.role = "user" → m.content ≠ "" := by
  intro n
  induction n with
  | zero =>
    intro inputs chat_log out hlen hinv hloop
    have hnil : inputs = [] := List.length_eq_zero.mp (Nat.le_zero.mp hlen)
    subst hnil
    rw [chat_loop] at hloop
    simp [input_user_prompt] at hloop
  | succ n ih =>
    intro inputs chat_log out hlen hinv hloop
    rw [chat_loop] at hloop
    split at hloop
    · exact absurd hloop (by simp)
    · rename_i pr heq
      split at hloop
      · injection hloop with h2
        subst h2
        exact hinv
      · obtain ⟨hne, hlt⟩ := input_user_prompt_some _ _ heq
        refine ih pr.2 _ out (by omega) ?_ hloop
        intro m hm hrole
        simp only [List.mem_append, List.mem_singleton] at hm
        rcases hm with (hm | hm) | hm
        · exact hinv m hm hrole
        · rw [hm] at hrole ⊢
          exact hne
        · rw [hm] at hrole
          rw [hapi] at hrole
          simp at hrole

/-- Claim C3: `input_user_prompt` never accepts an empty line (every
accepted prompt is non-empty); in the chat loop the reserved exit token
stops iteration before any append, so the transcript comes back exactly as
it was; with no system role, entering the exit token as the very first
input yields the empty transcript; and in any transcript the loop returns
(with the completion oracle answering in the "assistant" role, as the API
does), every user-role message has non-empty content. -/
theorem C3_empty_input_and_exit_token :
    (∀ (inputs : List String) (pr : String × List String),
      input_user_prompt inputs = some pr → pr.1 ≠ "") ∧
    (∀ (api : List Message → String × String) (chat_log : List Message)
      (rest : List String),
      chat_loop api (EXIT_COMMAND :: rest) chat_log = some chat_log) ∧
    (∀ (api : List Message → String × String) (rest : List String),
      generate_chat_log api "" (EXIT_COMMAND :: rest) = some []) ∧
    (∀ (api : List Message → String × String) (system_role : String)
      (inputs : List String) (out : List Message),
      (∀ l, (api l).2 = "assistant") →
      generate_chat_log api system_role inputs = some out →
      ∀ m ∈ out, m.role = "user" → m.content ≠ "") := by
  refine ⟨fun inputs pr h => (input_user_prompt_some inputs pr h).1,
    fun api chat_log rest => chat_loop_exit api rest chat_log, ?_, ?_⟩
  · intro api rest
    rw [generate_chat_log, if_pos rfl]
    exact chat_loop_exit api rest []
  · intro api system_role inputs out hapi hrun
    rw [generate_chat_log] at hrun
    refine chat_loop_user_content api hapi inputs.length inputs _ out (Nat.le_refl _) ?_ hrun
    split
    · intro m hm
      simp at hm
    · intro m hm
      simp only [List.mem_singleton] at hm
      rw [hm]
      intro hrole
      simp at hrole

/-- Witness for C3: with the streaming oracle always answering
("hello", "assistant"), the exit token as first input yields the empty
transcript, and in the finished session role "sys" / inputs
["hi", "exit()"] the user message "hi" of the resulting transcript has
non-empty content. -/
theorem C3_empty_input_and_exit_token_witness :
    generate_chat_log (fun _ => ("hello", "assistant")) "" ["exit()"] = some [] ∧
    (Message.mk "user" "hi").content ≠ "" := by
  constructor
  · exact C3_empty_input_and_exit_token.2.2.1 (fun _ => ("hello", "assistant")) []
  · refine C3_empty_input_and_exit_token.2.2.2 (fun _ => ("hello", "assistant"))
      "sys" ["hi", "exit()"]
      [⟨"system", "sys"⟩, ⟨"user", "hi"⟩, ⟨"assistant", "hello"⟩]
      (fun _ => rfl) ?_ ⟨"user", "hi"⟩ (by simp) rfl
    rw [generate_chat_log, if_neg (by decide),
      chat_loop_step _ _ _ "hi" ["exit()"] (by decide), if_neg (by decide),
      chat_loop_step _ _ _ "exit()" [] (by decide)]
    exact if_pos (by decide)

theorem write_one_untouched (ws : Worksheet) (row : Nat) (content : Message)
    (q : Nat) (c : String) (h : q ≠ row) :
    (write_one ws row content).cellValue q c = ws.cellValue q c ∧
    (write_one ws row content).cellFill q c = ws.cellFill q c ∧
    (write_one ws row content).cellWrap q c = ws.cellWrap q c ∧
    (write_one ws row content).rowHeight q = ws.rowHeight q := by
  by_cases hrole : content.role = "assistant" <;>
    simp [write_one, hrole, setCellValue, setCellFill, setCellWrap,
      setRowHeight, setCellFontName, h]

theorem write_one_at_row (ws : Worksheet) (row : Nat) (content : Message) :
    (write_one ws row content).cellValue row "A" = some content.role ∧
    (write_one ws row content).cellValue row "B" = some content.content ∧
    (write_one ws row content).cellWrap row "B" = true ∧
    (write_one ws row content).rowHeight row
      = some ((pySplitOnNewline content.content).length * 17) ∧
    (write_one ws row content).cellFill row "A"
      = (if content.role = "assistant" then some "d9d9d9" else ws.cellFill row "A") ∧
    (write_one ws row content).cellFill row "B"
      = (if content.role = "assistant" then some "d9d9d9" else ws.cellFill row "B") := by
  by_cases hrole : content.role = "assistant" <;>
    simp [write_one, hrole, setCellValue, setCellFill, setCellWrap,
      setRowHeight, setCellFontName]

theorem write_rows_low (chat_log : List Message) :
    ∀ (ws : Worksheet) (r q : Nat) (c : String), q < r →
      (write_rows ws r chat_log).cellValue q c = ws.cellValue q c ∧
      (write_rows ws r chat_log).cellFill q c = ws.cellFill q c ∧
      (write_rows ws r chat_log).cellWrap q c = ws.cellWrap q c ∧
      (write_rows ws r chat_log).rowHeight q = ws.rowHeight q := by
  induction chat_log with
  | nil => intro ws r q c _; exact ⟨rfl, rfl, rfl, rfl⟩
  | cons content rest ih =>
    intro ws r q c h
    obtain ⟨v1, f1, w1, t1⟩ := write_one_untouched ws r content q c (Nat.ne_of_lt h)
    obtain ⟨v2, f2, w2, t2⟩ :=
      ih (write_one ws r content) (r + 1) q c (Nat.lt_succ_of_lt h)
    exact ⟨v2.trans v1, f2.trans f1, w2.trans w1, t2.trans t1⟩

theorem write_rows_high (chat_log : List Message) :
    ∀ (ws : Worksheet) (r q : Nat) (c : String), r + chat_log.length ≤ q →
      (write_rows ws r chat_log).cellValue q c = ws.cellValue q c ∧
      (write_rows ws r chat_log).cellFill q c = ws.cellFill q c ∧
      (write_rows ws r chat_log).cellWrap q c = ws.cellWrap q c ∧
      (write_rows ws r chat_log).rowHeight q = ws.rowHeight q := by
  induction chat_log with
  | nil => intro ws r q c _; exact ⟨rfl, rfl, rfl, rfl⟩
  | cons content rest ih =>
    intro ws r q c h
    simp only [List.length_cons] at h
    obtain ⟨v1, f1, w1, t1⟩ := write_one_untouched ws r content q c (by omega)
    obtain ⟨v2, f2, w2, t2⟩ :=
      ih (write_one ws r content) (r + 1) q c (by omega)
    exact ⟨v2.trans v1, f2.trans f1, w2.trans w1, t2.trans t1⟩

theorem write_rows_get (chat_log : List Message) :
    ∀ (ws : Worksheet) (r i : Nat) (h : i < chat_log.length),
      (write_rows ws r chat_log).cellValue (r + i) "A"
        = some ((chat_log.get ⟨i, h⟩).role) ∧
      (write_rows ws r chat_log).cellValue (r + i) "B"
        = some ((chat_log.get ⟨i, h⟩).content) ∧
      (write_rows ws r chat_log).cellWrap (r + i) "B" = true ∧
      (write_rows ws r chat_log).rowHeight (r + i)
        = some ((pySplitOnNewline ((chat_log.get ⟨i, h⟩).content)).length * 17) ∧
      (write_rows ws r chat_log).cellFill (r + i) "A"
        = (if (chat_log.get ⟨i, h⟩).role = "assistant" then some "d9d9d9"
           else ws.cellFill (r + i) "A") ∧
      (write_rows ws r chat_log).cellFill (r + i) "B"
        = (if (chat_log.get ⟨i, h⟩).role = "assistant" then some "d9d9d9"
           else ws.cellFill (r + i) "B") := by
  induction chat_log with
  | nil => intro ws r i h; exact absurd h (by simp)
  | cons content rest ih =>
    intro ws r i h
    cases i with
    | zero =>
      simp only [Nat.add_zero, List.get]
      obtain ⟨v1, v2, w1, t1, f1, f2⟩ := write_one_at_row ws r content
      obtain ⟨lv, lf, lw, lt⟩ :=
        write_rows_low rest (write_one ws r content) (r + 1) r "A" (Nat.lt_succ_self r)
      obtain ⟨lv2, lf2, lw2, lt2⟩ :=
        write_rows_low rest (write_one ws r content) (r + 1) r "B" (Nat.lt_succ_self r)
      exact ⟨lv.trans v1, lv2.trans v2, lw2.trans w1, lt.trans t1,
        lf.trans f1, lf2.trans f2⟩
    | succ j =>
      have harith : r + (j + 1) = (r + 1) + j := by omega
      have hj : j < rest.length := by
        simp only [List.length_cons] at h
        omega
      obtain ⟨v1, v2, w1, t1, f1, f2⟩ := ih (write_one ws r content) (r + 1) j hj
      have hget : (content :: rest).get ⟨j + 1, h⟩ = rest.get ⟨j, hj⟩ := rfl
      obtain ⟨uvA, ufA, -, -⟩ :=
        write_one_untouched ws r content ((r + 1) + j) "A" (by omega)
      obtain ⟨uvB, ufB, -, -⟩ :=
        write_one_untouched ws r content ((r + 1) + j) "B" (by omega)
      rw [write_rows, harith, hget]
      refine ⟨v1, v2, w1, t1, ?_, ?_⟩
      · rw [f1, ufA]
      · rw [f2, ufB]

theorem header_formatting_header_cells (now_str : String) :
    (header_formatting emptyWorksheet now_str).cellValue 1 "A" = some now_str ∧
    (header_formatting emptyWorksheet now_str).cellValue 2 "A" = some "ロール" ∧
    (header_formatting emptyWorksheet now_str).cellValue 2 "B" = some "発言内容" ∧
    (header_formatting emptyWorksheet now_str).cellFill 2 "A" = some "156B31" ∧
    (header_formatting emptyWorksheet now_str).cellFill 2 "B" = some "156B31" ∧
    (header_formatting emptyWorksheet now_str).colWidth "A" = some 22 ∧
    (header_formatting emptyWorksheet now_str).colWidth "B" = some 168 := by
  simp [header_formatting, setCellValue, setCellFontName, setCellFill,
    setColWidth, emptyWorksheet]

theorem header_formatting_data_rows (now_str : String) (q : Nat) (c : String)
    (h : 3 ≤ q) :
    (header_formatting emptyWorksheet now_str).cellValue q c = none ∧
    (header_formatting emptyWorksheet now_str).cellFill q c = none ∧
    (header_formatting emptyWorksheet now_str).cellWrap q c = false ∧
    (header_formatting emptyWorksheet now_str).rowHeight q = none := by
  have h1 : q ≠ 1 := by omega
  have h2 : q ≠ 2 := by omega
  simp [header_formatting, setCellValue, setCellFontName, setCellFill,
    setColWidth, emptyWorksheet, h1, h2]

/-- Claim C4: exporting a transcript of N messages onto a fresh worksheet
writes exactly N data rows starting at row 3 (rows 1-2 are the
timestamp/header band), one (role, content) pair per message in transcript
order; the content cell gets wrap, the row height is 17 per
newline-delimited line of the content, and the light-gray fill is applied
to exactly the rows whose role is "assistant"; rows at or past
3 + N stay empty. -/
theorem C4_write_chat_log_rows (now_str : String) (chat_log : List Message) :
    (∀ (i : Nat) (h : i < chat_log.length),
      (output_excel_worksheet now_str chat_log).cellValue (3 + i) "A"
        = some ((chat_log.get ⟨i, h⟩).role) ∧
      (output_excel_worksheet now_str chat_log).cellValue (3 + i) "B"
        = some ((chat_log.get ⟨i, h⟩).content) ∧
      (output_excel_worksheet now_str chat_log).cellWrap (3 + i) "B" = true ∧
      (output_excel_worksheet now_str chat_log).rowHeight (3 + i)
        = some ((pySplitOnNewline ((chat_log.get ⟨i, h⟩).content)).length * 17) ∧
      ((output_excel_worksheet now_str chat_log).cellFill (3 + i) "A" = some "d9d9d9"
        ↔ (chat_log.get ⟨i, h⟩).role = "assistant") ∧
      ((output_excel_worksheet now_str chat_log).cellFill (3 + i) "B" = some "d9d9d9"
        ↔ (chat_log.get ⟨i, h⟩).role = "assistant")) ∧
    (∀ (q : Nat) (c : String), 3 + chat_log.length ≤ q →
      (output_excel_worksheet now_str chat_log).cellValue q c = none) ∧
    (output_excel_worksheet now_str chat_log).cellValue 2 "A" = some "ロール" ∧
    (output_excel_worksheet now_str chat_log).cellValue 2 "B" = some "発言内容" ∧
    (output_excel_worksheet now_str chat_log).cellValue 1 "A" = some now_str := by
  have hdr := header_formatting_header_cells now_str
  refine ⟨?_, ?_, ?_, ?_, ?_⟩
  · intro i h
    obtain ⟨v1, v2, w1, t1, f1, f2⟩ :=
      write_rows_get chat_log (header_formatting emptyWorksheet now_str) 3 i h
    obtain ⟨-, hfA, -, -⟩ :=
      header_formatting_data_rows now_str (3 + i) "A" (by omega)
    obtain ⟨-, hfB, -, -⟩ :=
      header_formatting_data_rows now_str (3 + i) "B" (by omega)
    rw [hfA] at f1
    rw [hfB] at f2
    refine ⟨v1, v2, w1, t1, ?_, ?_⟩
    · rw [output_excel_worksheet, write_chat_log, f1]
      by_cases hrole : (chat_log.get ⟨i, h⟩).role = "assistant" <;> simp [hrole]
    · rw [output_excel_worksheet, write_chat_log, f2]
      by_cases hrole : (chat_log.get ⟨i, h⟩).role = "assistant" <;> simp [hrole]
  · intro q c hq
    obtain ⟨hv, -, -, -⟩ :=
      write_rows_high chat_log (header_formatting emptyWorksheet now_str) 3 q c hq
    obtain ⟨hv0, -, -, -⟩ := header_formatting_data_rows now_str q c (by omega)
    rw [output_excel_worksheet, write_chat_log, hv, hv0]
  · obtain ⟨hv, -, -, -⟩ :=
      write_rows_low chat_log (header_formatting emptyWorksheet now_str) 3 2 "A"
        (by omega)
    rw [output_excel_worksheet, write_chat_log, hv]
    exact hdr.2.1
  · obtain ⟨hv, -, -, -⟩ :=
      write_rows_low chat_log (header_formatting emptyWorksheet now_str) 3 2 "B"
        (by omega)
    rw [output_excel_worksheet, write_chat_log, hv]
    exact hdr.2.2.1
  · obtain ⟨hv, -, -, -⟩ :=
      write_rows_low chat_log (header_formatting emptyWorksheet now_str) 3 1 "A"
        (by omega)
    rw [output_excel_worksheet, write_chat_log, hv]
    exact hdr.1

/-- Witness for C4: the spec's scenario transcript
[(user, "hi"), (assistant, "hello")] — header at row 2, "user"/"hi" at
row 3, "assistant"/"hello" at row 4, gray fill on row 4, height 17 on
row 4, and row 5 empty. -/
theorem C4_write_chat_log_rows_witness :
    (output_excel_worksheet "ts" [⟨"user", "hi"⟩, ⟨"assistant", "hello"⟩]).cellValue 2 "A"
      = some "ロール" ∧
    (output_excel_worksheet "ts" [⟨"user", "hi"⟩, ⟨"assistant", "hello"⟩]).cellValue 3 "A"
      = some "user" ∧
    (output_excel_worksheet "ts" [⟨"user", "hi"⟩, ⟨"assistant", "hello"⟩]).cellValue 3 "B"
      = some "hi" ∧
    (output_excel_worksheet "ts" [⟨"user", "hi"⟩, ⟨"assistant", "hello"⟩]).cellValue 4 "A"
      = some "assistant" ∧
    (output_excel_worksheet "ts" [⟨"user", "hi"⟩, ⟨"assistant", "hello"⟩]).cellValue 4 "B"
      = some "hello" ∧
    (output_excel_worksheet "ts" [⟨"user", "hi"⟩, ⟨"assistant", "hello"⟩]).cellFill 4 "A"
      = some "d9d9d9" ∧
    (output_excel_worksheet "ts" [⟨"user", "hi"⟩, ⟨"assistant", "hello"⟩]).rowHeight 4
      = some 17 ∧
    (output_excel_worksheet "ts" [⟨"user", "hi"⟩, ⟨"assistant", "hello"⟩]).cellValue 5 "A"
      = none := by
  have h := C4_write_chat_log_rows "ts" [⟨"user", "hi"⟩, ⟨"assistant", "hello"⟩]
  have h0 := h.1 0 (by decide)
  have h1 := h.1 1 (by decide)
  exact ⟨h.2.2.1, h0.1, h0.2.1, h1.1, h1.2.1, (h1.2.2.2.2.1).mpr rfl,
    h1.2.2.2.1, h.2.1 5 "A" (by decide)⟩

/-- Claim C7: on success `fetch_gpt_model_list` prints nothing and returns
exactly the ids of the listed models containing the substring "gpt" (a
permutation of the filtered ids, sorted lexically); on each error class it
returns `None` with that class's diagnostic — the API/service-unavailable
pair shares one diagnostic and the four handler diagnostics are pairwise
distinct — and `chat_runner` then exits before the model-selection prompt. -/
theorem C7_fetch_gpt_model_list_spec :
    (∀ models : List OpenAIModel,
      ∃ l : List String,
        (fetch_gpt_model_list (.ok models)).1 = some l ∧
        (fetch_gpt_model_list (.ok models)).2 = [] ∧
        List.Sorted (fun a b => a ≤ b) l ∧
        l.Perm ((models.filter (fun m => strHasSub m.id "gpt")).map (fun m => m.id)) ∧
        (∀ x : String,
          x ∈ l ↔ ∃ m ∈ models, m.id = x ∧ strHasSub m.id "gpt" = true)) ∧
    (∀ e : OpenAIErrorKind,
      (fetch_gpt_model_list (.error e)).1 = none ∧
      (fetch_gpt_model_list (.error e)).2 = fetch_error_messages e ∧
      chat_runner_model_phase (fetch_gpt_model_list (.error e)).1 = none) ∧
    fetch_error_messages .apiError = fetch_error_messages .serviceUnavailableError ∧
    List.Pairwise (fun a b => a ≠ b)
      [fetch_error_messages .apiError, fetch_error_messages .timeoutError,
       fetch_error_messages .authenticationError,
       fetch_error_messages .otherOpenAIError] := by
  refine ⟨?_, fun e => ⟨rfl, rfl, rfl⟩, rfl, by decide⟩
  intro models
  refine ⟨_, rfl, rfl, List.sorted_insertionSort _ _, List.perm_insertionSort _ _, ?_⟩
  intro x
  rw [(List.perm_insertionSort (fun a b => a ≤ b)
    ((models.filter (fun m => strHasSub m.id "gpt")).map (fun m => m.id))).mem_iff]
  simp only [List.mem_map, List.mem_filter]
  constructor
  · rintro ⟨m, ⟨hm, hsub⟩, rfl⟩
    exact ⟨m, hm, rfl, hsub⟩
  · rintro ⟨m, hm, rfl, hsub⟩
    exact ⟨m, ⟨hm, hsub⟩, rfl⟩

/-- Witness for C7: concrete evaluations through the theorem — a timeout
error yields no list and the run exits before model selection, and a
successful fetch prints no diagnostics. -/
theorem C7_fetch_gpt_model_list_spec_witness :
    (fetch_gpt_model_list (.error .timeoutError)).1 = none ∧
    chat_runner_model_phase (fetch_gpt_model_list (.error .timeoutError)).1 = none ∧
    (fetch_gpt_model_list (.ok [⟨"gpt-4"⟩, ⟨"dall-e"⟩])).2 = [] := by
  refine ⟨(C7_fetch_gpt_model_list_spec.2.1 .timeoutError).1,
    (C7_fetch_gpt_model_list_spec.2.1 .timeoutError).2.2, ?_⟩
  obtain ⟨l, -, h2, -⟩ := C7_fetch_gpt_model_list_spec.1 [⟨"gpt-4"⟩, ⟨"dall-e"⟩]
  exact h2

/-- Claim C9: when the fetch succeeds but no model id contains "gpt", the
function returns the empty list, and `chat_runner`'s truthiness test
(`if not gpt_list`) exits exactly as in the fetch-failure case: the
model-selection prompt is never reached. -/
theorem C9_empty_model_list_exits :
    ∀ (models : List OpenAIModel) (e : OpenAIErrorKind),
      (∀ m ∈ models, strHasSub m.id "gpt" = false) →
      (fetch_gpt_model_list (.ok models)).1 = some [] ∧
      chat_runner_model_phase (fetch_gpt_model_list (.ok models)).1 = none ∧
      chat_runner_model_phase (fetch_gpt_model_list (.ok models)).1
        = chat_runner_model_phase (fetch_gpt_model_list (.error e)).1 := by
  intro models e hall
  have hfilter : models.filter (fun m => strHasSub m.id "gpt") = [] := by
    rw [List.filter_eq_nil_iff]
    intro m hm
    rw [hall m hm]
    simp
  refine ⟨?_, ?_, ?_⟩ <;>
    simp [fetch_gpt_model_list, hfilter, chat_runner_model_phase, pyListOptTruthy]

/-- Witness for C9: the one-model list whose id "dall-e-2" does not contain
"gpt". -/
theorem C9_empty_model_list_exits_witness :
    (fetch_gpt_model_list (.ok [⟨"dall-e-2"⟩])).1 = some [] ∧
    chat_runner_model_phase (fetch_gpt_model_list (.ok [⟨"dall-e-2"⟩])).1 = none := by
  have h := C9_empty_model_list_exits [⟨"dall-e-2"⟩] .otherOpenAIError (by decide)
  exact ⟨h.1, h.2.1⟩

theorem get_initial_prompt_none (generated_log : List Message)
    (hall : ∀ m ∈ generated_log, m.role ≠ "user") :
    get_initial_prompt generated_log = none := by
  induction generated_log with
  | nil => rfl
  | cons m rest ih =>
    simp only [get_initial_prompt]
    rw [if_neg (hall m (by simp))]
    exact ih (fun x hx => hall x (by simp [hx]))

/-- Claim C10: if the finished transcript is non-empty but has no
user-role message, `chat_runner` finds no initial prompt, issues zero
summary completion calls, returns the empty string as the summary, and the
exporter's worksheet title (the sanitized summary) is the empty string. -/
theorem C10_no_user_message_empty_summary :
    ∀ (summary_api : String → String) (generated_log : List Message),
      generated_log ≠ [] →
      (∀ m ∈ generated_log, m.role ≠ "user") →
      get_initial_prompt generated_log = none ∧
      chat_runner_summary summary_api generated_log = ("", 0) ∧
      create_worksheet_title (chat_runner_summary summary_api generated_log).1 = "" := by
  intro summary_api generated_log _ hall
  have hgip := get_initial_prompt_none generated_log hall
  refine ⟨hgip, ?_, ?_⟩ <;>
    simp [chat_runner_summary, hgip, create_worksheet_title, trim_invalid_chars,
      invalid_chars, pyReplaceCharEmpty]

/-- Witness for C10: the transcript holding only the system message
produced by entering a role and then the exit token first. -/
theorem C10_no_user_message_empty_summary_witness :
    chat_runner_summary (fun _ => "summary") [⟨"system", "sys"⟩] = ("", 0) ∧
    create_worksheet_title
      (chat_runner_summary (fun _ => "summary") [⟨"system", "sys"⟩]).1 = "" := by
  have h := C10_no_user_message_empty_summary (fun _ => "summary")
    [⟨"system", "sys"⟩] (by simp) (by decide)
  exact ⟨h.2.1, h.2.2⟩

/-- Claim C8: on Windows ("nt"), when the spreadsheet file does not exist,
`is_output_open_excel` raises an uncaught FileNotFoundError (the "r+b"
probe fails and only PermissionError is caught) instead of returning
False, so main.py's module body crashes before any chat begins. -/
theorem C8_windows_missing_file_crash :
    ∀ (isLockedByOther lsofOutputNonempty : Bool),
      is_output_open_excel "nt" false isLockedByOther lsofOutputNonempty
        = .error .fileNotFoundError ∧
      main_flow "nt" false isLockedByOther lsofOutputNonempty
        = .crashedBeforeChat .fileNotFoundError := by
  intro isLockedByOther lsofOutputNonempty
  exact ⟨rfl, rfl⟩
